import Mathlib

/-!
Shallow embedding of `src/simulation.js` (flocking robots simulation).

JS `Number` arithmetic is idealized as exact real arithmetic (`ℝ`), with
`Math.sqrt` rendered as `Real.sqrt`.  `THREE.Vector3` operations are
translated component-wise, following the THREE.js implementations:
`divideScalar s` multiplies by `1 / s`, and `normalize` divides by
`length || 1` (so the zero vector normalizes to itself).  Over `ℝ` the
term `1 / 0` equals `0`, whereas JS produces `Infinity`/`NaN`; the place
where the source actually divides by a possibly-zero distance is analyzed
separately (see `claim_separation_no_epsilon`).

The JS loop `for (const robot of robots) robot.update(robots)` mutates each
robot object in place, so later robots read already-updated state of earlier
ones; `stepSeq` models this with an explicit array that is overwritten
index by index.  The `other !== this` reference-identity test in the force
loops is modelled by passing each robot the list of all robots with its own
index removed (every `new Robot()` is a distinct object in the source).
-/

noncomputable section

/-- Component-wise model of `THREE.Vector3`. -/
@[ext]
structure Vec3 where
  x : ℝ
  y : ℝ
  z : ℝ

namespace Vec3

/-- `Vector3.add`. -/
def add (a b : Vec3) : Vec3 := ⟨a.x + b.x, a.y + b.y, a.z + b.z⟩

/-- `Vector3.subVectors(a, b)` / `a.sub(b)`. -/
def sub (a b : Vec3) : Vec3 := ⟨a.x - b.x, a.y - b.y, a.z - b.z⟩

/-- `Vector3.multiplyScalar`. -/
def multiplyScalar (v : Vec3) (s : ℝ) : Vec3 := ⟨v.x * s, v.y * s, v.z * s⟩

/-- `Vector3.divideScalar`: THREE multiplies by `1 / s`.  Over `ℝ` the
zero-divisor case gives `1 / 0 = 0`, whereas JS yields `Infinity` and then
`0 * Infinity = NaN`; this case is therefore NOT faithful, and no program
property is confirmed through it — the two places where the source can
pass a zero divisor are treated as code bugs (see
`claim_speed_bound_zero_distance`, `claim_bounds_zero_distance` and
`claim_separation_no_epsilon`). -/
def divideScalar (v : Vec3) (s : ℝ) : Vec3 := v.multiplyScalar (1 / s)

/-- `Vector3.length`. -/
def length (v : Vec3) : ℝ := Real.sqrt (v.x ^ 2 + v.y ^ 2 + v.z ^ 2)

/-- `Vector3.normalize`: THREE divides by `length() || 1`,
so a zero-length vector is returned unchanged. -/
def normalize (v : Vec3) : Vec3 :=
  v.divideScalar (if v.length = 0 then 1 else v.length)

/-- `Vector3.distanceTo`. -/
def distanceTo (a b : Vec3) : ℝ := (a.sub b).length

/-- `new THREE.Vector3()`. -/
def zero : Vec3 := ⟨0, 0, 0⟩

end Vec3

/-- `floorSize` from the source (line 37). -/
def floorSize : ℝ := 50

/-- Core simulation state of one robot: the fields of class `Robot` that
feed the steering computation (visual members are excluded). -/
structure Robot where
  position : Vec3
  velocity : Vec3
  maxSpeed : ℝ
  maxForce : ℝ
  goalWeight : ℝ

namespace Robot

/-- The accumulation loop of `Robot.separate` (lines 304-315):
for every other robot closer than `desiredSeparation = 3.0`, add the
normalized offset scaled by `1/d`, and count it. -/
def sepLoop (self : Robot) : List Robot → Vec3 → ℕ → Vec3 × ℕ
  | [], steer, count => (steer, count)
  | other :: rest, steer, count =>
    let d := self.position.distanceTo other.position
    if d < 3.0 then
      self.sepLoop rest
        (steer.add (((self.position.sub other.position).normalize).divideScalar d))
        (count + 1)
    else
      self.sepLoop rest steer count

/-- `Robot.separate` (lines 299-328).  `robots` is the list of all other
robots (the `other !== this` test removes `self`). -/
def separate (self : Robot) (robots : List Robot) : Vec3 :=
  let sc := self.sepLoop robots Vec3.zero 0
  let steer := sc.1
  let count := sc.2
  if count > 0 then
    let steer := steer.divideScalar count
    if steer.length > 0 then
      let steer := ((steer.normalize).multiplyScalar self.maxSpeed).sub self.velocity
      if steer.length > self.maxForce then
        (steer.normalize).multiplyScalar self.maxForce
      else steer
    else steer
  else steer

/-- `Robot.seek` (lines 381-389). -/
def seek (self : Robot) (target : Vec3) : Vec3 :=
  let desired := ((target.sub self.position).normalize).multiplyScalar self.maxSpeed
  let steer := desired.sub self.velocity
  if steer.length > self.maxForce then
    (steer.normalize).multiplyScalar self.maxForce
  else steer

/-- The accumulation loop of `Robot.cohere` (lines 335-343):
sum the positions of robots closer than `neighborDist = 8.0`. -/
def cohLoop (self : Robot) : List Robot → Vec3 → ℕ → Vec3 × ℕ
  | [], s, c => (s, c)
  | other :: rest, s, c =>
    let d := self.position.distanceTo other.position
    if d < 8.0 then
      self.cohLoop rest (s.add other.position) (c + 1)
    else
      self.cohLoop rest s c

/-- `Robot.cohere` (lines 330-351). -/
def cohere (self : Robot) (robots : List Robot) : Vec3 :=
  let sc := self.cohLoop robots Vec3.zero 0
  if sc.2 > 0 then
    self.seek (sc.1.divideScalar sc.2)
  else Vec3.zero

/-- The accumulation loop of `Robot.align` (lines 358-366):
sum the velocities of robots closer than `neighborDist = 8.0`. -/
def alignLoop (self : Robot) : List Robot → Vec3 → ℕ → Vec3 × ℕ
  | [], s, c => (s, c)
  | other :: rest, s, c =>
    let d := self.position.distanceTo other.position
    if d < 8.0 then
      self.alignLoop rest (s.add other.velocity) (c + 1)
    else
      self.alignLoop rest s c

/-- `Robot.align` (lines 353-379). -/
def align (self : Robot) (robots : List Robot) : Vec3 :=
  let sc := self.alignLoop robots Vec3.zero 0
  if sc.2 > 0 then
    let sum := sc.1.divideScalar sc.2
    let sum := (sum.normalize).multiplyScalar self.maxSpeed
    let steer := sum.sub self.velocity
    if steer.length > self.maxForce then
      (steer.normalize).multiplyScalar self.maxForce
    else steer
  else Vec3.zero

/-- The accumulation loop of `Robot.avoidObstacles` (lines 396-405):
same closeness-weighted construction as `sepLoop`, over obstacle
positions, with fixed `avoidRadius = 4.0`. -/
def avoidLoop (self : Robot) : List Vec3 → Vec3 → ℕ → Vec3 × ℕ
  | [], steer, count => (steer, count)
  | obstacle :: rest, steer, count =>
    let d := self.position.distanceTo obstacle
    if d < 4.0 then
      self.avoidLoop rest
        (steer.add (((self.position.sub obstacle).normalize).divideScalar d))
        (count + 1)
    else
      self.avoidLoop rest steer count

/-- `Robot.avoidObstacles` (lines 391-418), over the obstacle positions. -/
def avoidObstacles (self : Robot) (obstacles : List Vec3) : Vec3 :=
  let sc := self.avoidLoop obstacles Vec3.zero 0
  let steer := sc.1
  let count := sc.2
  if count > 0 then
    let steer := steer.divideScalar count
    if steer.length > 0 then
      let steer := ((steer.normalize).multiplyScalar self.maxSpeed).sub self.velocity
      if steer.length > self.maxForce then
        (steer.normalize).multiplyScalar self.maxForce
      else steer
    else steer
  else steer

/-- The simulation-state part of `Robot.update` (lines 248-297): force
accumulation in source order, velocity limiting, position integration,
bounds clamping and the vertical pin `position.y = 0.4`.  The remaining
statements of `update` (mesh, heading, wheels, trail) only read
`position`/`velocity`. -/
def updateCore (self : Robot) (robots : List Robot) (obstacles : List Vec3)
    (goalPosition : Vec3) : Robot :=
  let separation := self.separate robots
  let cohesion := self.cohere robots
  let alignment := self.align robots
  let avoidance := self.avoidObstacles obstacles
  let goalSeek := (self.seek goalPosition).multiplyScalar self.goalWeight
  let v := self.velocity.add (separation.multiplyScalar 1.5)
  let v := v.add (cohesion.multiplyScalar 0.5)
  let v := v.add (alignment.multiplyScalar 0.5)
  let v := v.add (avoidance.multiplyScalar 2.0)
  let v := v.add goalSeek
  let v := if v.length > self.maxSpeed then (v.normalize).multiplyScalar self.maxSpeed else v
  let p := self.position.add v
  let halfFloor := floorSize / 2
  { self with
    velocity := v
    position := ⟨max (-halfFloor + 2) (min (halfFloor - 2) p.x), 0.4,
                 max (-halfFloor + 2) (min (halfFloor - 2) p.z)⟩ }

/-- `Robot.update` including the one random draw the call consumes:
`trail.update` sets `light.intensity = 0.5 + Math.random() * 0.5`
(line 155).  Returns the new core state together with that intensity. -/
def update (self : Robot) (robots : List Robot) (obstacles : List Vec3)
    (goalPosition : Vec3) (rand : ℝ) : Robot × ℝ :=
  (self.updateCore robots obstacles goalPosition, 0.5 + rand * 0.5)

end Robot

/-- The per-frame robot loop of `animate` (lines 519-521):
`for (const robot of robots) robot.update(robots)`.  Each iteration
overwrites entry `i` of the (mutable, shared) array with the update computed
from the array's *current* contents — already-updated entries for indices
below `i`, pre-step entries above.  `fuel` is the number of remaining
iterations; the loop runs once per robot. -/
def stepSeqGo (obstacles : List Vec3) (g : Vec3) :
    ℕ → List Robot → ℕ → List Robot
  | 0, arr, _ => arr
  | fuel + 1, arr, i =>
    if h : i < arr.length then
      stepSeqGo obstacles g fuel
        (arr.set i ((arr.get ⟨i, h⟩).updateCore (arr.eraseIdx i) obstacles g)) (i + 1)
    else arr

/-- One whole-population step of the source loop. -/
def stepSeq (obstacles : List Vec3) (g : Vec3) (robots : List Robot) : List Robot :=
  stepSeqGo obstacles g robots.length robots 0

/-- Modelled from the spec: helper for the *simultaneous* step, in which
every agent is computed from the frozen pre-step `snapshot`. -/
def stepSimGo (obstacles : List Vec3) (g : Vec3) (snapshot : List Robot) :
    ℕ → List Robot → List Robot
  | _, [] => []
  | i, r :: rest =>
    r.updateCore (snapshot.eraseIdx i) obstacles g ::
      stepSimGo obstacles g snapshot (i + 1) rest

/-- Modelled from the spec: `step(dt)` "computes `computeStep` for every
agent using the *pre-step* snapshot of all agents ... and commits all new
states atomically at the end of the step". -/
def stepSim (obstacles : List Vec3) (g : Vec3) (robots : List Robot) : List Robot :=
  stepSimGo obstacles g robots 0 robots

/-- The module-level mutable simulation state: `robots`, the static
`obstacles` array (positions only), `goalPosition` (line 25, initialized
to the origin), and the `isRunning` flag. -/
structure SimState where
  robots : List Robot
  obstacles : List Vec3
  goalPosition : Vec3
  isRunning : Bool

/-- `new Robot()` (lines 166-246): the core state drawn from the random
stream `rng` starting at index `k`.  The constructor consumes five draws:
position x and z over `(floorSize - 4)` centered at 0, velocity x and z in
`(-0.05, 0.05)`, and the color hue (visual only, index `k + 4`). -/
def mkRobot (rng : ℕ → ℝ) (k : ℕ) : Robot :=
  { position := ⟨(rng k - 0.5) * (floorSize - 4), 0.4, (rng (k + 1) - 0.5) * (floorSize - 4)⟩
    velocity := ⟨(rng (k + 2) - 0.5) * 0.1, 0, (rng (k + 3) - 0.5) * 0.1⟩
    maxSpeed := 0.2
    maxForce := 0.03
    goalWeight := 0.5 }

/-- The creation loop of `initializeRobots` (lines 443-445):
`for (let i = 0; i < count; i++) robots.push(new Robot())`.  For a negative
`count` the loop body never runs, which is what `Int.toNat` yields. -/
def mkRobots (count : ℤ) (rng : ℕ → ℝ) (k : ℕ) : List Robot :=
  (List.range count.toNat).map fun i => mkRobot rng (k + 5 * i)

/-- `initializeRobots` (lines 437-446): dispose every existing robot and
replace the collection with `count` freshly constructed ones.  It touches
neither `isRunning` nor `goalPosition` nor the obstacles. -/
def initializeRobots (count : ℤ) (rng : ℕ → ℝ) (k : ℕ) (s : SimState) : SimState :=
  { s with robots := mkRobots count rng k }

/-- `startSimulation` (lines 448-455): sets `isRunning` if not already set
(button state is visual only). -/
def startSimulation (s : SimState) : SimState :=
  if s.isRunning then s else { s with isRunning := true }

/-- `stopSimulation` (lines 457-466): clears `isRunning` if set. -/
def stopSimulation (s : SimState) : SimState :=
  if s.isRunning then { s with isRunning := false } else s

/-- One `animate` frame (lines 509-528): returns immediately when not
running, otherwise runs the robot loop.  The computed `deltaTime` is never
passed to the robot update (the trail uses the constant `0.016`). -/
def animateStep (s : SimState) : SimState :=
  if s.isRunning then
    { s with robots := stepSeq s.obstacles s.goalPosition s.robots }
  else s

/-- The operations the goal-persistence claim quantifies over. -/
inductive SimAction
  | step
  | start
  | stop

def applyAction (s : SimState) : SimAction → SimState
  | SimAction.step => animateStep s
  | SimAction.start => startSimulation s
  | SimAction.stop => stopSimulation s

def applyActions (acts : List SimAction) (s : SimState) : SimState :=
  acts.foldl applyAction s

/-- Modelled from the spec (§4.1): `clampMagnitude(v, max)` "returns `v`
unchanged if `magnitude(v) <= max`, else `v` rescaled to exactly `max`,
preserving direction". -/
def clampMagnitude (v : Vec3) (m : ℝ) : Vec3 :=
  if v.length ≤ m then v else (v.normalize).multiplyScalar m

/-- Modelled from the spec (§4.2): `velocity' = velocity + separation*1.5 +
cohesion*0.5 + alignment*0.5 + avoidance*2.0 + goalSeek`, then
`velocity' = clampMagnitude(velocity', maxSpeed)`, where
`goalSeek = seek(goal) * goalWeight`. -/
def specVelocity (r : Robot) (others : List Robot) (obstacles : List Vec3)
    (g : Vec3) : Vec3 :=
  clampMagnitude
    (r.velocity.add
      (((r.separate others).multiplyScalar 1.5).add
        (((r.cohere others).multiplyScalar 0.5).add
          (((r.align others).multiplyScalar 0.5).add
            (((r.avoidObstacles obstacles).multiplyScalar 2.0).add
              ((r.seek g).multiplyScalar r.goalWeight))))))
    r.maxSpeed

/-- A goal value reachable through `onMouseClick` (which pins `y = 0.4`):
a click on the floor's center. -/
def goalC : Vec3 := ⟨0, 0.4, 0⟩

/-- A robot at the center of the floor with zero velocity and the
constructor's motion limits (`maxSpeed 0.2`, `maxForce 0.03`,
`goalWeight 0.5`). -/
def robotA : Robot := ⟨⟨0, 0.4, 0⟩, ⟨0, 0, 0⟩, 0.2, 0.03, 0.5⟩

/-- A robot five units from `robotA` along the x axis, zero velocity. -/
def robotB : Robot := ⟨⟨5, 0.4, 0⟩, ⟨0, 0, 0⟩, 0.2, 0.03, 0.5⟩

/-- The state of `robotA` after one update against `[robotB]` with goal
`goalC` and no obstacles. -/
def robotA1 : Robot := ⟨⟨0.015, 0.4, 0⟩, ⟨0.015, 0, 0⟩, 0.2, 0.03, 0.5⟩

/-- The state of `robotB` after one update against the pre-step `robotA`. -/
def robotBsim : Robot := ⟨⟨4.97, 0.4, 0⟩, ⟨-0.03, 0, 0⟩, 0.2, 0.03, 0.5⟩

/-- The state of `robotB` after one update against the already-updated
`robotA1` (what the sequential source loop computes). -/
def robotBseq : Robot := ⟨⟨4.985, 0.4, 0⟩, ⟨-0.015, 0, 0⟩, 0.2, 0.03, 0.5⟩

/-- A robot sitting exactly on the corner of the clamped region: the
bounds clamp (lines 277-278) maps every robot pushed past this corner to
exactly this position, so two robots can coincide here. -/
def robotCorner : Robot := ⟨⟨-23, 0.4, -23⟩, ⟨0, 0, 0⟩, 0.2, 0.03, 0.5⟩

/-- An empty, stopped simulation with the initial goal (the origin). -/
def simState0 : SimState :=
  { robots := [], obstacles := [], goalPosition := ⟨0, 0, 0⟩, isRunning := false }

/-- A running two-robot simulation with a user-set goal. -/
def simState1 : SimState :=
  { robots := [robotA, robotB], obstacles := [], goalPosition := goalC, isRunning := true }

/-! ## Basic vector lemmas -/

namespace Vec3

theorem length_nonneg (v : Vec3) : 0 ≤ v.length := Real.sqrt_nonneg _

theorem length_multiplyScalar (v : Vec3) (s : ℝ) :
    (v.multiplyScalar s).length = |s| * v.length := by
  unfold length multiplyScalar
  rw [show (v.x * s) ^ 2 + (v.y * s) ^ 2 + (v.z * s) ^ 2
        = s ^ 2 * (v.x ^ 2 + v.y ^ 2 + v.z ^ 2) by ring,
    Real.sqrt_mul (sq_nonneg s), Real.sqrt_sq_eq_abs]

theorem length_eq_zero (v : Vec3) : v.length = 0 ↔ v = zero := by
  unfold length
  rw [Real.sqrt_eq_zero (by positivity)]
  constructor
  · intro h
    have hx : v.x ^ 2 = 0 := by nlinarith [sq_nonneg v.x, sq_nonneg v.y, sq_nonneg v.z]
    have hy : v.y ^ 2 = 0 := by nlinarith [sq_nonneg v.x, sq_nonneg v.y, sq_nonneg v.z]
    have hz : v.z ^ 2 = 0 := by nlinarith [sq_nonneg v.x, sq_nonneg v.y, sq_nonneg v.z]
    ext <;> simp [zero] <;>
      [exact pow_eq_zero_iff two_ne_zero |>.mp hx;
       exact pow_eq_zero_iff two_ne_zero |>.mp hy;
       exact pow_eq_zero_iff two_ne_zero |>.mp hz]
  · intro h
    subst h
    simp [zero]

theorem length_normalize (v : Vec3) (h : v.length ≠ 0) :
    v.normalize.length = 1 := by
  unfold normalize divideScalar
  rw [if_neg h, length_multiplyScalar,
    abs_of_nonneg (div_nonneg zero_le_one (length_nonneg v))]
  field_simp

/-- The source's velocity-limiting step
`if (v.length() > max) v.normalize().multiplyScalar(max)` leaves the
magnitude at most `max`, for every nonnegative `max`. -/
theorem limit_length_le (v : Vec3) (m : ℝ) (hm : 0 ≤ m) :
    (if v.length > m then (v.normalize).multiplyScalar m else v).length ≤ m := by
  by_cases h : v.length > m
  · rw [if_pos h]
    have hv : v.length ≠ 0 := by
      intro h0
      rw [h0] at h
      linarith
    rw [length_multiplyScalar, length_normalize v hv, abs_of_nonneg hm]
    linarith
  · rw [if_neg h]
    linarith [not_lt.mp h]

theorem length_x (c : ℝ) : (⟨c, 0, 0⟩ : Vec3).length = |c| := by
  unfold length
  rw [show c ^ 2 + (0 : ℝ) ^ 2 + (0 : ℝ) ^ 2 = c ^ 2 by ring, Real.sqrt_sq_eq_abs]

theorem length_y (c : ℝ) : (⟨0, c, 0⟩ : Vec3).length = |c| := by
  unfold length
  rw [show (0 : ℝ) ^ 2 + c ^ 2 + (0 : ℝ) ^ 2 = c ^ 2 by ring, Real.sqrt_sq_eq_abs]

theorem length_x_nonneg (c : ℝ) (h : 0 ≤ c) : (⟨c, 0, 0⟩ : Vec3).length = c := by
  rw [length_x, abs_of_nonneg h]

theorem length_x_nonpos (c : ℝ) (h : c ≤ 0) : (⟨c, 0, 0⟩ : Vec3).length = -c := by
  rw [length_x, abs_of_nonpos h]

theorem length_y_nonneg (c : ℝ) (h : 0 ≤ c) : (⟨0, c, 0⟩ : Vec3).length = c := by
  rw [length_y, abs_of_nonneg h]

theorem length_y_nonpos (c : ℝ) (h : c ≤ 0) : (⟨0, c, 0⟩ : Vec3).length = -c := by
  rw [length_y, abs_of_nonpos h]

end Vec3

/-- The spec's `clampMagnitude` coincides with the source's inline
velocity-limiting conditional. -/
theorem clampMagnitude_eq_limit (w : Vec3) (m : ℝ) :
    clampMagnitude w m = if w.length > m then (w.normalize).multiplyScalar m else w := by
  unfold clampMagnitude
  by_cases h : w.length ≤ m
  · rw [if_pos h, if_neg (not_lt.mpr h)]
  · rw [if_neg h, if_pos (lt_of_not_le h)]

/-- Reassociation of the force sum: the source's sequence of `add` calls
equals the spec's single right-nested sum. -/
theorem force_sum_assoc (v s c a o gs : Vec3) :
    ((((v.add (s.multiplyScalar 1.5)).add (c.multiplyScalar 0.5)).add
        (a.multiplyScalar 0.5)).add (o.multiplyScalar 2.0)).add gs =
      v.add ((s.multiplyScalar 1.5).add ((c.multiplyScalar 0.5).add
        ((a.multiplyScalar 0.5).add ((o.multiplyScalar 2.0).add gs)))) := by
  ext <;> simp [Vec3.add, Vec3.multiplyScalar] <;> ring

/-! ## Per-robot update lemmas -/

namespace Robot

theorem separate_nil (r : Robot) : r.separate [] = Vec3.zero := by
  simp [separate, sepLoop]

theorem cohere_nil (r : Robot) : r.cohere [] = Vec3.zero := by
  simp [cohere, cohLoop]

theorem align_nil (r : Robot) : r.align [] = Vec3.zero := by
  simp [align, alignLoop]

theorem avoidObstacles_nil (r : Robot) : r.avoidObstacles [] = Vec3.zero := by
  simp [avoidObstacles, avoidLoop]

theorem updateCore_maxSpeed (self : Robot) (robots : List Robot)
    (obstacles : List Vec3) (g : Vec3) :
    (self.updateCore robots obstacles g).maxSpeed = self.maxSpeed := rfl

/-- Per-agent speed bound: one update leaves the velocity magnitude at
most `maxSpeed`, provided `maxSpeed` is nonnegative. -/
theorem updateCore_speed_le (self : Robot) (robots : List Robot)
    (obstacles : List Vec3) (g : Vec3) (hm : 0 ≤ self.maxSpeed) :
    ((self.updateCore robots obstacles g).velocity).length ≤ self.maxSpeed := by
  simp only [updateCore]
  exact Vec3.limit_length_le _ _ hm

/-- The update's velocity equals the spec's clamped force sum. -/
theorem updateCore_velocity_eq (r : Robot) (others : List Robot)
    (obstacles : List Vec3) (g : Vec3) :
    (r.updateCore others obstacles g).velocity = specVelocity r others obstacles g := by
  simp only [updateCore, specVelocity, clampMagnitude_eq_limit, force_sum_assoc]

/-- The update's position is the integrated position `position + velocity'`,
clamped into the floor bounds minus the margin, with the vertical pin. -/
theorem updateCore_position_eq (r : Robot) (others : List Robot)
    (obstacles : List Vec3) (g : Vec3) :
    (r.updateCore others obstacles g).position =
      ⟨max (-(floorSize / 2) + 2) (min (floorSize / 2 - 2)
          ((r.position.add ((r.updateCore others obstacles g).velocity)).x)),
        0.4,
        max (-(floorSize / 2) + 2) (min (floorSize / 2 - 2)
          ((r.position.add ((r.updateCore others obstacles g).velocity)).z))⟩ := by
  simp only [updateCore]

end Robot

/-! ## Step-loop lemmas -/

/-- Invariant lifting for the sequential robot loop: if every pre-step
robot satisfies `Q`, and `updateCore` sends `Q`-inputs to `P`-outputs,
then once the loop has visited every index, every entry satisfies `P`.
Entries below `i` are already updated, entries from `i` on are original. -/
theorem stepSeqGo_forall (obstacles : List Vec3) (g : Vec3) (P Q : Robot → Prop)
    (hPQ : ∀ (r : Robot) (others : List Robot), Q r → P (r.updateCore others obstacles g)) :
    ∀ (fuel : ℕ) (arr : List Robot) (i : ℕ),
      (∀ j (hj : j < arr.length), i ≤ j → Q (arr.get ⟨j, hj⟩)) →
      (∀ j (hj : j < arr.length), j < i → P (arr.get ⟨j, hj⟩)) →
      arr.length ≤ fuel + i →
      ∀ r ∈ stepSeqGo obstacles g fuel arr i, P r := by
  intro fuel
  induction fuel with
  | zero =>
    intro arr i _hQ hP hlen r hr
    rw [stepSeqGo] at hr
    obtain ⟨n, hn⟩ := List.mem_iff_get.mp hr
    have hn2 := n.2
    have := hP n.1 n.2 (by omega)
    rw [hn] at this
    exact this
  | succ fuel ih =>
    intro arr i hQ hP hlen r hr
    rw [stepSeqGo] at hr
    by_cases hil : i < arr.length
    · rw [dif_pos hil] at hr
      refine ih _ (i + 1) ?_ ?_ ?_ r hr
      · intro j hj hij
        have hj' : j < arr.length := by simpa using hj
        have hne : i ≠ j := by omega
        have : (arr.set i _).get ⟨j, hj⟩ = arr.get ⟨j, hj'⟩ := by
          simp [List.get_eq_getElem, List.getElem_set_ne hne]
        rw [this]
        exact hQ j hj' (by omega)
      · intro j hj hij
        have hj' : j < arr.length := by simpa using hj
        by_cases hji : j = i
        · subst hji
          have : (arr.set j ((arr.get ⟨j, hil⟩).updateCore (arr.eraseIdx j) obstacles g)).get ⟨j, hj⟩
              = (arr.get ⟨j, hil⟩).updateCore (arr.eraseIdx j) obstacles g := by
            simp [List.get_eq_getElem]
          rw [this]
          exact hPQ _ _ (hQ j hil le_rfl)
        · have hne : i ≠ j := fun h => hji h.symm
          have : (arr.set i _).get ⟨j, hj⟩ = arr.get ⟨j, hj'⟩ := by
            simp [List.get_eq_getElem, List.getElem_set_ne hne]
          rw [this]
          exact hP j hj' (by omega)
      · simpa using by omega
    · rw [dif_neg hil] at hr
      obtain ⟨n, hn⟩ := List.mem_iff_get.mp hr
      have hn2 := n.2
      have := hP n.1 n.2 (by omega)
      rw [hn] at this
      exact this

/-- Specialization of `stepSeqGo_forall` to a whole `stepSeq` call. -/
theorem stepSeq_forall (obstacles : List Vec3) (g : Vec3) (P Q : Robot → Prop)
    (hPQ : ∀ (r : Robot) (others : List Robot), Q r → P (r.updateCore others obstacles g))
    (robots : List Robot) (hQ : ∀ r ∈ robots, Q r) :
    ∀ r ∈ stepSeq obstacles g robots, P r := by
  refine stepSeqGo_forall obstacles g P Q hPQ robots.length robots 0 ?_ ?_ (by omega)
  · intro j hj _
    exact hQ _ (robots.get_mem _ _)
  · intro j hj hj0
    omega

/-- Entries at an index below the loop counter are never touched again. -/
theorem stepSeqGo_get_of_lt (obstacles : List Vec3) (g : Vec3) :
    ∀ (fuel : ℕ) (arr : List Robot) (i j : ℕ), j < i →
      (stepSeqGo obstacles g fuel arr i)[j]? = arr[j]? := by
  intro fuel
  induction fuel with
  | zero =>
    intro arr i j _
    rw [stepSeqGo]
  | succ fuel ih =>
    intro arr i j hj
    rw [stepSeqGo]
    by_cases h : i < arr.length
    · rw [dif_pos h, ih _ (i + 1) j (by omega), List.getElem?_set_ne (by omega)]
    · rw [dif_neg h]

/-! ## Concrete evaluations -/

theorem updateCore_robotA_eval : robotA.updateCore [robotB] [] goalC = robotA1 := by
  norm_num [Robot.updateCore, Robot.separate, Robot.sepLoop, Robot.cohere, Robot.cohLoop,
    Robot.align, Robot.alignLoop, Robot.avoidObstacles, Robot.avoidLoop, Robot.seek,
    robotA, robotB, robotA1, goalC, Vec3.distanceTo, Vec3.sub, Vec3.add, Vec3.zero,
    Vec3.normalize, Vec3.divideScalar, Vec3.multiplyScalar,
    Vec3.length_x_nonneg, Vec3.length_x_nonpos, Vec3.length_y_nonneg, Vec3.length_y_nonpos,
    floorSize]

theorem updateCore_robotB_snapshot_eval :
    robotB.updateCore [robotA] [] goalC = robotBsim := by
  norm_num [Robot.updateCore, Robot.separate, Robot.sepLoop, Robot.cohere, Robot.cohLoop,
    Robot.align, Robot.alignLoop, Robot.avoidObstacles, Robot.avoidLoop, Robot.seek,
    robotA, robotB, robotBsim, goalC, Vec3.distanceTo, Vec3.sub, Vec3.add, Vec3.zero,
    Vec3.normalize, Vec3.divideScalar, Vec3.multiplyScalar,
    Vec3.length_x_nonneg, Vec3.length_x_nonpos, Vec3.length_y_nonneg, Vec3.length_y_nonpos,
    floorSize]

theorem updateCore_robotB_sequential_eval :
    robotB.updateCore [robotA1] [] goalC = robotBseq := by
  norm_num [Robot.updateCore, Robot.separate, Robot.sepLoop, Robot.cohere, Robot.cohLoop,
    Robot.align, Robot.alignLoop, Robot.avoidObstacles, Robot.avoidLoop, Robot.seek,
    robotA1, robotB, robotBseq, goalC, Vec3.distanceTo, Vec3.sub, Vec3.add, Vec3.zero,
    Vec3.normalize, Vec3.divideScalar, Vec3.multiplyScalar,
    Vec3.length_x_nonneg, Vec3.length_x_nonpos, Vec3.length_y_nonneg, Vec3.length_y_nonpos,
    floorSize]

/-- A lone robot at the floor's center, with the *initial* goal value
(the origin, never clicked): the goal-seek force still acts (downward in
`y`, toward the origin), changing the velocity. -/
theorem updateCore_lone_eval : robotA.updateCore [] [] ⟨0, 0, 0⟩ =
    (⟨⟨0, 0.4, 0⟩, ⟨0, -0.015, 0⟩, 0.2, 0.03, 0.5⟩ : Robot) := by
  norm_num [Robot.updateCore, Robot.separate, Robot.sepLoop, Robot.cohere, Robot.cohLoop,
    Robot.align, Robot.alignLoop, Robot.avoidObstacles, Robot.avoidLoop, Robot.seek,
    robotA, Vec3.distanceTo, Vec3.sub, Vec3.add, Vec3.zero,
    Vec3.normalize, Vec3.divideScalar, Vec3.multiplyScalar,
    Vec3.length_x_nonneg, Vec3.length_x_nonpos, Vec3.length_y_nonneg, Vec3.length_y_nonpos,
    floorSize]

theorem stepSeq_AB_eval : stepSeq [] goalC [robotA, robotB] = [robotA1, robotBseq] := by
  simp [stepSeq, stepSeqGo, updateCore_robotA_eval, updateCore_robotB_sequential_eval]

theorem stepSim_AB_eval : stepSim [] goalC [robotA, robotB] = [robotA1, robotBsim] := by
  simp [stepSim, stepSimGo, updateCore_robotA_eval, updateCore_robotB_snapshot_eval]

/-! ## Claims -/

/-- Under the exact-real idealization *only* — where the zero-distance
division of `sepLoop`/`avoidLoop` collapses to `0` instead of the JS
`NaN` — every completed step bounds each velocity magnitude by `maxSpeed`.
This does NOT hold of the JS program at coincident entities (see
`claim_speed_bound_zero_distance`), so it is a scoped lemma, not a
confirmation of the spec's invariant. -/
theorem speed_bound_ideal (obstacles : List Vec3) (g : Vec3) (robots : List Robot)
    (hm : ∀ r ∈ robots, 0 ≤ r.maxSpeed) :
    ∀ r ∈ stepSeq obstacles g robots, r.velocity.length ≤ r.maxSpeed := by
  refine stepSeq_forall obstacles g _ (fun r => 0 ≤ r.maxSpeed) ?_ robots hm
  intro r others hr
  rw [Robot.updateCore_maxSpeed]
  exact Robot.updateCore_speed_le r others obstacles g hr

/-- Under the exact-real idealization *only* (same caveat as
`speed_bound_ideal`): after every completed step the horizontal position
components lie in `[-23, 23]` and the vertical one equals `0.4`.  In JS a
NaN velocity propagates into `Math.max(-23, Math.min(23, NaN)) = NaN`
(see `claim_bounds_zero_distance`). -/
theorem bounds_containment_ideal (obstacles : List Vec3) (g : Vec3) (robots : List Robot) :
    ∀ r ∈ stepSeq obstacles g robots,
      (-(25 : ℝ) + 2 ≤ r.position.x ∧ r.position.x ≤ 25 - 2) ∧
      (-(25 : ℝ) + 2 ≤ r.position.z ∧ r.position.z ≤ 25 - 2) ∧
      r.position.y = 0.4 := by
  refine stepSeq_forall obstacles g _ (fun _ => True) ?_ robots (fun _ _ => trivial)
  intro r others _
  simp only [Robot.updateCore, floorSize]
  norm_num [le_max_iff, max_le_iff, min_le_iff, le_min_iff]

/-- C1: the speed-bound invariant fails in the program.  At two coincident
robots (reachable: the corner clamp maps both to exactly `(-23, 0.4, -23)`)
the separation loop takes its `d < 3` branch at distance exactly `0` and
executes `diff.normalize().divideScalar(d)` with that zero distance — this
theorem evaluates the loop at the failing input and exhibits the zero
divisor.  In JS the division is `0 * (1 / 0) = 0 * Infinity = NaN`, the
limit test `NaN > maxSpeed` is false, and the NaN velocity survives the
step with `magnitude(velocity) ≤ maxSpeed` false; the exact-real embedding
cannot represent the NaN (here the contribution collapses to zero). -/
theorem claim_speed_bound_zero_distance :
    robotCorner.position.distanceTo robotCorner.position = 0 ∧
    robotCorner.sepLoop [robotCorner] Vec3.zero 0
      = (Vec3.zero.add
          (((robotCorner.position.sub robotCorner.position).normalize).divideScalar 0), 1) := by
  have hd : robotCorner.position.distanceTo robotCorner.position = 0 := by
    norm_num [Vec3.distanceTo, Vec3.sub, Vec3.length, robotCorner, Real.sqrt_zero]
  refine ⟨hd, ?_⟩
  simp only [Robot.sepLoop, hd]
  rw [if_pos (by norm_num : (0 : ℝ) < 3.0)]

/-- C2: the bounds-containment invariant fails in the program, by the same
zero-distance division on the obstacle path: a robot exactly at an
obstacle's position makes `avoidObstacles` take its `d < 4` branch at
distance `0` and divide by that zero distance (exhibited here).  In JS the
resulting NaN velocity is added to the position and the clamp evaluates
`Math.max(-23, Math.min(23, NaN)) = NaN`, so `position.x` leaves
`[-halfExtent + margin, halfExtent - margin]` (only `position.y`, assigned
the constant `0.4`, survives); the exact-real embedding cannot represent
the NaN. -/
theorem claim_bounds_zero_distance :
    robotCorner.position.distanceTo robotCorner.position = 0 ∧
    robotCorner.avoidLoop [robotCorner.position] Vec3.zero 0
      = (Vec3.zero.add
          (((robotCorner.position.sub robotCorner.position).normalize).divideScalar 0), 1) := by
  have hd : robotCorner.position.distanceTo robotCorner.position = 0 := by
    norm_num [Vec3.distanceTo, Vec3.sub, Vec3.length, robotCorner, Real.sqrt_zero]
  refine ⟨hd, ?_⟩
  simp only [Robot.avoidLoop, hd]
  rw [if_pos (by norm_num : (0 : ℝ) < 4.0)]

/-- C3 counterexample: the sequential source loop and the spec's
pre-step-snapshot semantics disagree on a concrete two-robot population
(the second robot sees the first robot's already-updated state). -/
theorem claim_snapshot_counterexample :
    stepSeq [] goalC [robotA, robotB] ≠ stepSim [] goalC [robotA, robotB] := by
  rw [stepSeq_AB_eval, stepSim_AB_eval]
  intro h
  have h2 := (List.cons.injEq _ _ _ _ ▸ h).2
  rw [List.cons.injEq] at h2
  have hv := congrArg Robot.velocity h2.1
  rw [robotBseq, robotBsim] at hv
  have hx := congrArg Vec3.x hv
  norm_num at hx

/-- C3 amended: agents are updated sequentially, in array order, each
against the array's current contents; only the first agent is guaranteed
to be computed from the pre-step snapshot, and on that first agent the
sequential loop and the snapshot semantics agree for every population. -/
theorem claim_sequential_first_agent (obstacles : List Vec3) (g : Vec3)
    (robots : List Robot) :
    (stepSeq obstacles g robots)[0]? = (stepSim obstacles g robots)[0]? := by
  cases robots with
  | nil => rfl
  | cons r rs =>
    rw [stepSeq, stepSim]
    have hlen : (r :: rs).length = rs.length + 1 := rfl
    rw [hlen, stepSeqGo, dif_pos (by simp)]
    rw [stepSeqGo_get_of_lt obstacles g _ _ 1 0 (by omega)]
    rw [stepSimGo]
    simp [List.eraseIdx]

/-- C4 counterexample: a lone agent with no obstacles and no goal ever set
(`goalPosition` still holds its initial value, the origin) is *not* left
in pure drift by one step: its velocity changes (the code always seeks
`goalPosition`). -/
theorem claim_no_goal_counterexample :
    stepSeq [] ⟨0, 0, 0⟩ [robotA] ≠ [robotA] := by
  have h : stepSeq [] ⟨0, 0, 0⟩ [robotA]
      = [⟨⟨0, 0.4, 0⟩, ⟨0, -0.015, 0⟩, 0.2, 0.03, 0.5⟩] := by
    simp [stepSeq, stepSeqGo, updateCore_lone_eval]
  rw [h]
  intro heq
  have h1 := (List.cons.injEq _ _ _ _ ▸ heq).1
  have hv := congrArg Robot.velocity h1
  rw [robotA] at hv
  have hy := congrArg Vec3.y hv
  norm_num at hy

/-- C4 amended: there is no "no goal" state — `goalPosition` always holds a
vector (initially the origin) and its seek force is always applied.  For a
lone agent with no other agents and no obstacles, the net steering force is
exactly the goal-seeking term `seek(goalPosition) * goalWeight`, so one
step is pure drift only when that term vanishes. -/
theorem claim_lone_agent_goal_only (r : Robot) (g : Vec3) :
    (r.updateCore [] [] g).velocity =
      clampMagnitude (r.velocity.add ((r.seek g).multiplyScalar r.goalWeight))
        r.maxSpeed := by
  rw [Robot.updateCore_velocity_eq, specVelocity,
    Robot.separate_nil, Robot.cohere_nil, Robot.align_nil, Robot.avoidObstacles_nil]
  congr 1
  ext <;> simp [Vec3.add, Vec3.multiplyScalar, Vec3.zero]

/-- C5: the separation loop applies the raw closeness weight `1 / d` with
no minimum-distance epsilon: for every bound `B > 0` there is a pair of
robots at positive distance whose single-neighbor accumulated
(pre-normalization) steering vector has magnitude exceeding `B`.
(At distance exactly `0` the JS source evaluates `0 * (1 / 0)`, i.e.
`0 * Infinity = NaN`, poisoning the velocity — the idealized real
semantics used here cannot represent that, so the blow-up is exhibited on
positive distances instead.) -/
theorem claim_separation_no_epsilon (B : ℝ) (hB : 0 < B) :
    ∃ self other : Robot,
      0 < self.position.distanceTo other.position ∧
      ((self.sepLoop [other] Vec3.zero 0).1).length > B := by
  have hB1 : (0 : ℝ) < B + 1 := by linarith
  have hd0 : (0 : ℝ) < 1 / (B + 1) := by positivity
  have hdne : (1 : ℝ) / (B + 1) ≠ 0 := ne_of_gt hd0
  refine ⟨⟨⟨1 / (B + 1), 0.4, 0⟩, Vec3.zero, 0.2, 0.03, 0.5⟩,
          ⟨⟨0, 0.4, 0⟩, Vec3.zero, 0.2, 0.03, 0.5⟩, ?_, ?_⟩
  · show (0 : ℝ) < Vec3.distanceTo _ _
    rw [Vec3.distanceTo]
    have hsub : ((⟨1 / (B + 1), 0.4, 0⟩ : Vec3).sub ⟨0, 0.4, 0⟩) = ⟨1 / (B + 1), 0, 0⟩ := by
      rw [Vec3.sub]
      norm_num
    rw [hsub, Vec3.length_x_nonneg _ (le_of_lt hd0)]
    exact hd0
  · have hsub : ((⟨1 / (B + 1), 0.4, 0⟩ : Vec3).sub ⟨0, 0.4, 0⟩) = ⟨1 / (B + 1), 0, 0⟩ := by
      rw [Vec3.sub]
      norm_num
    have hdist : (⟨1 / (B + 1), 0.4, 0⟩ : Vec3).distanceTo ⟨0, 0.4, 0⟩ = 1 / (B + 1) := by
      rw [Vec3.distanceTo, hsub, Vec3.length_x_nonneg _ (le_of_lt hd0)]
    have h1 : 1 / (B + 1) ≤ 1 := by
      rw [div_le_one hB1]
      linarith
    have hd3 : 1 / (B + 1) < 3.0 := lt_of_le_of_lt h1 (by norm_num)
    have hnorm : (⟨1 / (B + 1), 0, 0⟩ : Vec3).normalize = ⟨1, 0, 0⟩ := by
      rw [Vec3.normalize, Vec3.length_x_nonneg _ (le_of_lt hd0), if_neg hdne,
        Vec3.divideScalar, Vec3.multiplyScalar]
      ext <;> field_simp
    have hloop : Robot.sepLoop ⟨⟨1 / (B + 1), 0.4, 0⟩, Vec3.zero, 0.2, 0.03, 0.5⟩
        [⟨⟨0, 0.4, 0⟩, Vec3.zero, 0.2, 0.03, 0.5⟩] Vec3.zero 0
        = (⟨B + 1, 0, 0⟩, 1) := by
      simp only [Robot.sepLoop, hdist, hsub, hnorm, Vec3.divideScalar, Vec3.multiplyScalar,
        one_div_one_div, Vec3.zero, Vec3.add]
      rw [if_pos hd3]
      norm_num
    rw [hloop]
    show Vec3.length _ > B
    rw [Vec3.length_x_nonneg _ (by linarith)]
    linarith

/-- Witness for C5 at the concrete bound `100`. -/
theorem claim_separation_no_epsilon_witness :
    (0 : ℝ) < 100 ∧
    ∃ self other : Robot,
      0 < self.position.distanceTo other.position ∧
      ((self.sepLoop [other] Vec3.zero 0).1).length > 100 :=
  ⟨by norm_num, claim_separation_no_epsilon 100 (by norm_num)⟩

/-- C6: one update computes the new velocity as
`clampMagnitude(velocity + separation*1.5 + cohesion*0.5 + alignment*0.5 +
avoidance*2.0 + seek(goal)*goalWeight, maxSpeed)` and the new position as
the old position plus that velocity (then bounds-clamped with margin `2`
of `halfExtent 25`, vertical pinned) — no quantity is scaled by elapsed
time (neither function takes a time step). -/
theorem claim_update_formula (r : Robot) (others : List Robot)
    (obstacles : List Vec3) (g : Vec3) :
    (r.updateCore others obstacles g).velocity = specVelocity r others obstacles g ∧
    (r.updateCore others obstacles g).position =
      ⟨max (-(25 : ℝ) + 2) (min (25 - 2)
          ((r.position.add (specVelocity r others obstacles g)).x)),
        0.4,
        max (-(25 : ℝ) + 2) (min (25 - 2)
          ((r.position.add (specVelocity r others obstacles g)).z))⟩ := by
  refine ⟨Robot.updateCore_velocity_eq r others obstacles g, ?_⟩
  rw [Robot.updateCore_position_eq, Robot.updateCore_velocity_eq]
  norm_num [floorSize]

/-- C7: `initializeRobots n` (the population resize) yields exactly `n`
agents, every one constructed fresh from the random stream (independent of
the prior collection in any two states), and leaves the running flag and
the goal untouched. -/
theorem claim_resize_population (n : ℤ) (hn : 0 ≤ n) (rng : ℕ → ℝ) (k : ℕ)
    (s t : SimState) :
    ((initializeRobots n rng k s).robots.length : ℤ) = n ∧
    (initializeRobots n rng k s).robots = (initializeRobots n rng k t).robots ∧
    (∀ i : ℕ, i < n.toNat →
      (initializeRobots n rng k s).robots[i]? = some (mkRobot rng (k + 5 * i))) ∧
    (initializeRobots n rng k s).isRunning = s.isRunning ∧
    (initializeRobots n rng k s).goalPosition = s.goalPosition := by
  refine ⟨?_, rfl, ?_, rfl, rfl⟩
  · simp only [initializeRobots, mkRobots, List.length_map, List.length_range]
    omega
  · intro i hi
    simp [initializeRobots, mkRobots, List.getElem?_map, List.getElem?_range, hi]

/-- Witness for C7: resizing two different states to 3 agents. -/
theorem claim_resize_population_witness :
    (0 : ℤ) ≤ 3 ∧
    (((initializeRobots 3 (fun _ => 0) 0 simState1).robots.length : ℤ) = 3 ∧
    (initializeRobots 3 (fun _ => 0) 0 simState1).robots
      = (initializeRobots 3 (fun _ => 0) 0 simState0).robots ∧
    (∀ i : ℕ, i < (3 : ℤ).toNat →
      (initializeRobots 3 (fun _ => 0) 0 simState1).robots[i]?
        = some (mkRobot (fun _ => 0) (0 + 5 * i))) ∧
    (initializeRobots 3 (fun _ => 0) 0 simState1).isRunning = simState1.isRunning ∧
    (initializeRobots 3 (fun _ => 0) 0 simState1).goalPosition = simState1.goalPosition) :=
  ⟨by norm_num, claim_resize_population 3 (by norm_num) (fun _ => 0) 0 simState1 simState0⟩

/-- C8 counterexample: a negative population request is *not* rejected —
the creation loop never runs and the call silently leaves an empty agent
collection (running flag untouched, no error signalled anywhere in the
model, faithfully to the source which has no error channel). -/
theorem claim_negative_count_counterexample :
    (initializeRobots (-1) (fun _ => 0) 0 simState1).robots = [] ∧
    (initializeRobots (-1) (fun _ => 0) 0 simState1).isRunning = true := by
  constructor
  · simp [initializeRobots, mkRobots]
  · rfl

/-- C8 amended: for every negative count, `initializeRobots` silently
yields an empty population and leaves the running state unchanged; no
invalid-argument condition is signalled (range policy, 3..7, lives only in
the external button handler). -/
theorem claim_negative_count_silent (n : ℤ) (hn : n < 0) (rng : ℕ → ℝ) (k : ℕ)
    (s : SimState) :
    (initializeRobots n rng k s).robots = [] ∧
    (initializeRobots n rng k s).isRunning = s.isRunning := by
  constructor
  · simp [initializeRobots, mkRobots, Int.toNat_of_nonpos (le_of_lt hn)]
  · rfl

/-- Witness for the amended C8 at the concrete count `-5`. -/
theorem claim_negative_count_silent_witness :
    (-5 : ℤ) < 0 ∧
    ((initializeRobots (-5) (fun _ => 0) 0 simState0).robots = [] ∧
    (initializeRobots (-5) (fun _ => 0) 0 simState0).isRunning = simState0.isRunning) :=
  ⟨by norm_num, claim_negative_count_silent (-5) (by norm_num) (fun _ => 0) 0 simState0⟩

/-- C9: the goal point persists — no sequence of step, stop and start
operations ever changes `goalPosition`; only the external pick event
(`onMouseClick`) writes it. -/
theorem claim_goal_persistence (acts : List SimAction) (s : SimState) :
    (applyActions acts s).goalPosition = s.goalPosition := by
  induction acts generalizing s with
  | nil => rfl
  | cons a rest ih =>
    show (applyActions rest (applyAction s a)).goalPosition = s.goalPosition
    rw [ih]
    cases a with
    | step =>
      simp only [applyAction, animateStep]
      split <;> rfl
    | start =>
      simp only [applyAction, startSimulation]
      split <;> rfl
    | stop =>
      simp only [applyAction, stopSimulation]
      split <;> rfl

/-- C10: the per-agent step computation is deterministic — the robot state
returned by `update` is independent of the random draw (randomness feeds
only the trail-light intensity, beyond construction-time placement), so two
runs from identical agent, population, obstacle and goal state produce
identical new velocity and position. -/
theorem claim_update_deterministic (r : Robot) (others : List Robot)
    (obstacles : List Vec3) (g : Vec3) (rand1 rand2 : ℝ) :
    (r.update others obstacles g rand1).1 = (r.update others obstacles g rand2).1 ∧
    (r.update others obstacles g rand1).1.velocity
      = (r.update others obstacles g rand2).1.velocity ∧
    (r.update others obstacles g rand1).1.position
      = (r.update others obstacles g rand2).1.position :=
  ⟨rfl, rfl, rfl⟩
